import Mathlib

/-!
Shallow embedding of the LOA-app repository (files `app.py` and `main.py`).

Both files define a class `LOAGenerator` holding `conversation_history`
(a Python list of role/content message dicts) and `current_loa`
(`None` or the letter text).  The external OpenAI chat-completion call is
modelled as an explicit function argument `svc : List Msg -> Except String
String`: `Except.ok c` is a normal API response with content `c`, and
`Except.error e` is the Python exception raised by the call (so a result of
`Except.error` escaping an operation models an uncaught exception
propagating to the caller).  `datetime.date.today()` is modelled as an
explicit `today : Date` argument.

The two files differ: `app.py` wraps both API calls in `try/except` and
returns `"Error generating LOA: ..."` / `"Error editing LOA: ..."` strings,
while `main.py` has no `try/except` in `generate_loa` / `edit_loa`.
The `App` namespace embeds `app.py`, the `Main` namespace embeds `main.py`.
-/

/-- Message roles used in the OpenAI chat payloads ("system", "user",
"assistant").  A `user` message in the stored history is a request Turn,
an `assistant` message is a response Turn. -/
inductive Role where
  | system : Role
  | user : Role
  | assistant : Role
deriving DecidableEq, Repr

/-- One chat message: the Python dict `{"role": ..., "content": ...}`
(a Turn of the transcript when stored in `conversation_history`). -/
structure Msg where
  role : Role
  content : String
deriving DecidableEq, Repr

/-- The mutable state of a `LOAGenerator` instance:
`self.conversation_history` and `self.current_loa` (`None` modelled as
`Option.none`).  `self.model` and the fixed temperature / max_tokens are
constants that never influence the state machine and are omitted. -/
structure GenState where
  conversation_history : List Msg
  current_loa : Option String
deriving DecidableEq, Repr

/-- The freshly constructed generator: `__init__` sets
`conversation_history = []` and `current_loa = None`. -/
def initState : GenState := ⟨[], none⟩

/-- The external chat-completion service boundary. -/
def Svc : Type := List Msg → Except String String

/-- Python truthiness test `not self.current_loa`: true for `None` and for
the empty string. -/
def pyFalsy : Option String → Bool
  | none => true
  | some s => s = ""

/-- A calendar date as used by `datetime.date`. -/
structure Date where
  year : Nat
  month : Nat
  day : Nat
deriving DecidableEq, Repr

/-- Zero-pad a number to two digits, as Python strftime `%d` / `%m` do. -/
def pad2 (n : Nat) : String :=
  if n < 10 then "0" ++ toString n else toString n

/-- Zero-pad a number to four digits, as Python strftime `%Y` does. -/
def pad4 (n : Nat) : String :=
  if n < 10 then "000" ++ toString n
  else if n < 100 then "00" ++ toString n
  else if n < 1000 then "0" ++ toString n
  else toString n

/-- `d.strftime("%d.%m.%Y")`. -/
def fmtDMY (d : Date) : String :=
  pad2 d.day ++ "." ++ pad2 d.month ++ "." ++ pad4 d.year

/-- `d.strftime("%Y/%m/%d")`. -/
def fmtYMD (d : Date) : String :=
  pad4 d.year ++ "/" ++ pad2 d.month ++ "/" ++ pad2 d.day

/-- The system prompt returned by `_create_system_prompt`; the string is
identical in `app.py` and `main.py`. -/
def systemPrompt : String :=
  "\n        You are an expert in creating Letters of Authorization (LOAs) for outdoor advertising agencies. \n        Your task is to generate professional, legally-sound LOAs based on the parameters provided.\n        \n        Follow these guidelines:\n        1. Use formal business language appropriate for official documents\n        2. Structure the LOA with proper sections including reference numbers, dates, recipient details, subject line, main body, and signatory information\n        3. Include all necessary legal clauses regarding installation, maintenance, payments, and liability\n        4. Format dates as DD.MM.YYYY\n        5. Make the content specific to the scenario provided\n        6. Ensure payment terms and conditions are clearly stated\n        7. Include appropriate references to any tenders or previous communications when provided\n        \n        Return only the plain text content of the LOA without any explanations or additional formatting.\n        "

/-- Content of the edit-request message built in `edit_loa`; the template is
identical in `app.py` and `main.py`. -/
def editMessageContent (edit_request : String) : String :=
  "\n            Edit the LOA according to the following request:\n            \n            " ++ edit_request ++ "\n            \n            Return the complete edited LOA.\n            "

/-- The edit-request Turn appended to the history by `edit_loa`. -/
def editMsg (edit_request : String) : Msg :=
  ⟨Role.user, editMessageContent edit_request⟩

/-- The fixed string returned by `edit_loa` when no letter exists yet;
identical in both files. -/
def noLoaMsg : String :=
  "No LOA has been generated yet. Please generate an LOA first."

/-- Number of request Turns (role `user`) in a history. -/
def countReq (l : List Msg) : Nat :=
  l.countP (fun m => m.role == Role.user)

/-- Number of response Turns (role `assistant`) in a history. -/
def countResp (l : List Msg) : Nat :=
  l.countP (fun m => m.role == Role.assistant)

namespace App

/-- Parameters accepted by `app.py`'s `_construct_loa_prompt` via
`params.get`; `none` models an absent key. -/
structure Params where
  address : Option String
  to_whom : Option String
  scenario : Option String
  specific_details : Option String
  yours_sincerely : Option String
deriving DecidableEq, Repr

/-- `app.py` `LOAGenerator._construct_loa_prompt`: the f-string built from
`params` and `datetime.date.today().strftime("%d.%m.%Y")`. -/
def constructLoaPrompt (p : Params) (today : Date) : String :=
  "\n        Generate a Letter of Authorization (LOA) with the following details:\n        \n        Date: " ++ fmtDMY today ++ "\n        \n        Recipient Address:\n        " ++ p.address.getD "" ++ "\n        \n        To: " ++ p.to_whom.getD "To Whom It May Concern" ++ "\n        \n        Scenario: " ++ p.scenario.getD "" ++ "\n        \n        Specific Details to Include:\n        " ++ p.specific_details.getD "" ++ "\n        \n        Closing:\n        Yours sincerely,\n        " ++ p.yours_sincerely.getD "" ++ "\n        \n        The LOA should follow a formal business letter format with:\n        1. Clear header with date\n        2. Recipient address\n        3. Appropriate salutation\n        4. A clear introduction stating the purpose of the letter\n        5. A main body detailing the specifics of the authorization\n        6. Any necessary terms and conditions\n        7. A formal closing with signatory information\n        \n        Ensure the content specifically addresses the scenario provided and incorporates all the specific details mentioned.\n        "

/-- The message list `app.py`'s `generate_loa` sends to the API: system
prompt, the new user prompt, then (`if self.conversation_history:`) the
existing history extended after it. -/
def genMessages (st : GenState) (p : Params) (today : Date) : List Msg :=
  let base := [⟨Role.system, systemPrompt⟩, ⟨Role.user, constructLoaPrompt p today⟩]
  if st.conversation_history.isEmpty then base
  else base ++ st.conversation_history

/-- `app.py` `LOAGenerator.generate_loa`.  On API success it REPLACES the
stored history with the new request/response pair, sets `current_loa` and
returns the content; the `except` branch returns
`"Error generating LOA: " ++ e` leaving the state untouched (the mutations
sit after the call inside the `try`). -/
def generate_loa (st : GenState) (p : Params) (today : Date) (svc : Svc) :
    GenState × String :=
  match svc (genMessages st p today) with
  | Except.ok loa_content =>
      (⟨[⟨Role.user, constructLoaPrompt p today⟩, ⟨Role.assistant, loa_content⟩],
        some loa_content⟩, loa_content)
  | Except.error e => (st, "Error generating LOA: " ++ e)

/-- The message list `app.py`'s `edit_loa` sends: the system prompt followed
by the whole history, which at that point already ends with the appended
edit-request message. -/
def editMessages (st : GenState) (edit_request : String) : List Msg :=
  ⟨Role.system, systemPrompt⟩ :: (st.conversation_history ++ [editMsg edit_request])

/-- `app.py` `LOAGenerator.edit_loa`.  The third component counts how many
times the external service was invoked during the call (0 or 1); it is
instrumentation for the proofs, not program state.  When `not
self.current_loa` the fixed message is returned without any API call.
Otherwise the edit request is appended to the history BEFORE the `try`, so
a failing API call leaves it in place; the `except` branch returns
`"Error editing LOA: " ++ e`. -/
def edit_loa (st : GenState) (edit_request : String) (svc : Svc) :
    GenState × String × Nat :=
  if pyFalsy st.current_loa then (st, noLoaMsg, 0)
  else
    let hist1 := st.conversation_history ++ [editMsg edit_request]
    match svc (editMessages st edit_request) with
    | Except.ok edited_loa =>
        (⟨hist1 ++ [⟨Role.assistant, edited_loa⟩], some edited_loa⟩, edited_loa, 1)
    | Except.error e => (⟨hist1, st.current_loa⟩, "Error editing LOA: " ++ e, 1)

end App

/-- The value of a `date` entry in a `main.py` parameter dict: either a
`datetime.date` object or a plain string. -/
inductive PyDate where
  | dateVal : Date → PyDate
  | strVal : String → PyDate
deriving DecidableEq, Repr

/-- Python truthiness of an optional string field fetched with
`params.get(key)`: truthy iff present and non-empty. -/
def truthy (o : Option String) : Bool :=
  o.getD "" != ""

namespace Main

/-- Parameters read by `main.py`'s `_construct_loa_prompt` via
`params.get` / `params[...]`; `none` models an absent key. -/
structure Params where
  reference_number : Option String
  date : Option PyDate
  company_name : Option String
  address_line1 : Option String
  address_line2 : Option String
  address_line3 : Option String
  city : Option String
  pincode : Option String
  contact_person : Option String
  contact_email : Option String
  contact_phone : Option String
  scenario : Option String
  scenario_description : Option String
  location : Option String
  duration : Option String
  size : Option String
  payment_type : Option String
  payment_amount : Option String
  payment_unit : Option String
  annual_increase : Option String
  additional_terms : Option String
  signatory_name : Option String
  signatory_position : Option String
  organization : Option String
  special_requirements : Option String
deriving DecidableEq, Repr

/-- A `Params` value with every key absent, for concrete instantiations. -/
def emptyParams : Params :=
  ⟨none, none, none, none, none, none, none, none, none, none, none, none, none,
   none, none, none, none, none, none, none, none, none, none, none, none⟩

/-- One conditional element of `address_parts`:
`if params.get(k): address_parts.append(params[k])`. -/
def optPart (o : Option String) : List String :=
  if truthy o then [o.getD ""] else []

/-- The `city_pincode` accumulator of `_construct_loa_prompt`: starts empty,
appends the city when truthy, then appends `" - <pincode>"` when the
pincode is truthy. -/
def cityPincode (p : Params) : String :=
  (if truthy p.city then p.city.getD "" else "") ++
    (if truthy p.pincode then " - " ++ p.pincode.getD "" else "")

/-- The `address_parts` list of `_construct_loa_prompt`: company name and
the three address lines when truthy, then `city_pincode` when non-empty. -/
def addressParts (p : Params) : List String :=
  optPart p.company_name ++ optPart p.address_line1 ++ optPart p.address_line2 ++
    optPart p.address_line3 ++
    (if cityPincode p != "" then [cityPincode p] else [])

/-- `recipient_address = "\n".join(address_parts)`. -/
def recipientAddress (p : Params) : String :=
  String.intercalate "\n" (addressParts p)

/-- The `date_str` computation: a `datetime.date` value is formatted
`%d.%m.%Y`; a truthy string is passed through verbatim; otherwise today's
date is formatted. -/
def dateStr (p : Params) (today : Date) : String :=
  match p.date with
  | some (PyDate.dateVal d) => fmtDMY d
  | some (PyDate.strVal s) => if s != "" then s else fmtDMY today
  | none => fmtDMY today

/-- `params.get('reference_number', 'LOA/' + today.strftime('%Y/%m/%d'))`:
the supplied value verbatim when the key is present, else the dated
default. -/
def refValue (p : Params) (today : Date) : String :=
  p.reference_number.getD ("LOA/" ++ fmtYMD today)

/-- Literal text of the initial f-string up to the reference number. -/
def promptIntro : String :=
  "\n        Generate a Letter of Authorization (LOA) with the following details:\n        \n        Reference Number: "

/-- Rest of the initial f-string: date line and recipient block. -/
def promptAfterRef (p : Params) (today : Date) : String :=
  "\n        Date: " ++ dateStr p today ++ "\n        \n        Recipient:\n        " ++ recipientAddress p ++ "\n        \n        "

/-- The three conditional contact lines appended to the prompt. -/
def contactBlock (p : Params) : String :=
  (if truthy p.contact_person then "Kind attention: " ++ p.contact_person.getD "" ++ "\n" else "") ++
    (if truthy p.contact_email then "Email: " ++ p.contact_email.getD "" ++ "\n" else "") ++
    (if truthy p.contact_phone then "Phone: " ++ p.contact_phone.getD "" ++ "\n" else "")

/-- The unconditional scenario / subject / duration f-string. -/
def scenarioBlock (p : Params) : String :=
  "\n        Scenario: " ++ p.scenario.getD "outdoor advertising" ++ "\n        \n        Subject: LOA for " ++ p.scenario_description.getD "Outdoor Advertisement" ++ " at " ++ p.location.getD "[Location]" ++ "\n        \n        Duration: " ++ p.duration.getD "5" ++ " years\n        "

/-- The conditional size line. -/
def sizeBlock (p : Params) : String :=
  if truthy p.size then "Size of Advertising Space: " ++ p.size.getD "" ++ "\n" else ""

/-- The conditional payment-details f-string, with the nested
annual-increase line. -/
def paymentBlock (p : Params) : String :=
  if truthy p.payment_type && truthy p.payment_amount then
    "\n            Payment Details:\n            - Type: " ++ p.payment_type.getD "" ++ "\n            - Amount: " ++ p.payment_amount.getD "" ++ " per " ++ p.payment_unit.getD "square foot" ++ "\n            " ++
      (if truthy p.annual_increase then "- Annual Increase: " ++ p.annual_increase.getD "" ++ "%\n" else "")
  else ""

/-- The conditional additional-terms f-string. -/
def termsBlock (p : Params) : String :=
  if truthy p.additional_terms then
    "\n            Additional Terms:\n            " ++ p.additional_terms.getD "" ++ "\n            "
  else ""

/-- The unconditional signatory f-string. -/
def signatoryBlock (p : Params) : String :=
  "\n        Signatory:\n        Name: " ++ p.signatory_name.getD "[Signatory Name]" ++ "\n        Position: " ++ p.signatory_position.getD "[Position]" ++ "\n        Organization: " ++ p.organization.getD "[Organization]" ++ "\n        "

/-- The conditional special-requirements f-string. -/
def specialBlock (p : Params) : String :=
  if truthy p.special_requirements then
    "\n            Special Requirements:\n            " ++ p.special_requirements.getD "" ++ "\n            "
  else ""

/-- The fixed closing style-guidance f-string. -/
def styleBlock : String :=
  "\n        Base the style and format on typical outdoor advertising LOAs which include:\n        1. A formal header with reference number and date\n        2. Clear recipient information\n        3. A specific subject line stating the purpose\n        4. An introduction referencing any tender or previous communication\n        5. A main section clearly authorizing the advertising and stating terms\n        6. Detailed conditions including payment terms, responsibilities, and operational requirements\n        7. Standard legal clauses covering liability, termination, and compliance\n        8. A formal closing with signatory information\n        "

/-- `main.py` `LOAGenerator._construct_loa_prompt`: the initial f-string
followed by each `prompt +=` block in source order. -/
def constructLoaPrompt (p : Params) (today : Date) : String :=
  promptIntro ++ refValue p today ++ promptAfterRef p today ++ contactBlock p ++
    scenarioBlock p ++ sizeBlock p ++ paymentBlock p ++ termsBlock p ++
    signatoryBlock p ++ specialBlock p ++ styleBlock

/-- The message list `main.py`'s `generate_loa` sends to the API (same
shape as in `app.py`). -/
def genMessages (st : GenState) (p : Params) (today : Date) : List Msg :=
  let base := [⟨Role.system, systemPrompt⟩, ⟨Role.user, constructLoaPrompt p today⟩]
  if st.conversation_history.isEmpty then base
  else base ++ st.conversation_history

/-- `main.py` `LOAGenerator.generate_loa`: identical to the `app.py`
version except that there is NO `try/except` — a raising API call
propagates (`Except.error`) and no state is mutated (the mutations sit
after the call). -/
def generate_loa (st : GenState) (p : Params) (today : Date) (svc : Svc) :
    GenState × Except String String :=
  match svc (genMessages st p today) with
  | Except.ok loa_content =>
      (⟨[⟨Role.user, constructLoaPrompt p today⟩, ⟨Role.assistant, loa_content⟩],
        some loa_content⟩, Except.ok loa_content)
  | Except.error e => (st, Except.error e)

/-- The message list `main.py`'s `edit_loa` sends: system prompt followed
by the history including the freshly appended edit-request message. -/
def editMessages (st : GenState) (edit_request : String) : List Msg :=
  ⟨Role.system, systemPrompt⟩ :: (st.conversation_history ++ [editMsg edit_request])

/-- `main.py` `LOAGenerator.edit_loa`: the no-letter guard returns the
fixed message (a normal return, hence `Except.ok`); otherwise the edit
request is appended and the API called with NO `try/except`, so a raising
call propagates (`Except.error`) with the appended request left in place.
The third component counts external-service invocations (proof
instrumentation). -/
def edit_loa (st : GenState) (edit_request : String) (svc : Svc) :
    GenState × Except String String × Nat :=
  if pyFalsy st.current_loa then (st, Except.ok noLoaMsg, 0)
  else
    let hist1 := st.conversation_history ++ [editMsg edit_request]
    match svc (editMessages st edit_request) with
    | Except.ok edited_loa =>
        (⟨hist1 ++ [⟨Role.assistant, edited_loa⟩], some edited_loa⟩,
          Except.ok edited_loa, 1)
    | Except.error e => (⟨hist1, st.current_loa⟩, Except.error e, 1)

end Main

/-!
Layout Renderer: the line-classification loop of `create_word_document`
in `app.py`.  The docx side effects (margins, paragraph objects) carry no
state that feeds back into classification; each loop iteration adds one
paragraph whose styling is determined by the branch taken, so the loop is
embedded as a pure map from lines to classified blocks.
-/

/-- The presentational role given to a line by the branch of
`create_word_document` that handles it. -/
inductive BlockRole where
  | blank : BlockRole
  | refOrDate : BlockRole
  | salutation : BlockRole
  | subject : BlockRole
  | closing : BlockRole
  | sectionHeader : BlockRole
  | body : BlockRole
deriving DecidableEq, Repr

/-- One classified block: the (stripped) line text and its role. -/
structure Block where
  raw_text : String
  role : BlockRole
deriving DecidableEq, Repr

/-- Characters stripped by Python `str.strip()` for the inputs in scope:
ASCII whitespace (this embedding does not model exotic Unicode
whitespace, which no letter text here contains). -/
def pyIsSpace (c : Char) : Bool :=
  c = ' ' || c = '\t' || c = '\n' || c = '\x0d' || c = '\x0b' || c = '\x0c'

/-- Python `str.strip()`: drop leading and trailing whitespace.  Written
over the character list so that it reduces by kernel computation. -/
def pyStrip (s : String) : String :=
  ⟨((s.data.dropWhile pyIsSpace).reverse.dropWhile pyIsSpace).reverse⟩

/-- Python `str.lower()` (ASCII case folding, which covers every pattern
the classifier compares against). -/
def pyLower (s : String) : String :=
  ⟨s.data.map Char.toLower⟩

/-- Python `str.startswith(pre)`. -/
def pyStartsWith (s pre : String) : Bool :=
  pre.data.isPrefixOf s.data

/-- Python `str.endswith(suf)`. -/
def pyEndsWith (s suf : String) : Bool :=
  suf.data.reverse.isPrefixOf s.data.reverse

/-- Python `len(s)`: number of characters. -/
def pyLen (s : String) : Nat :=
  s.data.length

/-- Worker for `str.split('\n')`: `acc` holds the current line reversed. -/
def splitLinesAux : List Char → List Char → List String
  | [], acc => [⟨acc.reverse⟩]
  | c :: cs, acc =>
      if c = '\n' then String.mk acc.reverse :: splitLinesAux cs []
      else splitLinesAux cs (c :: acc)

/-- Python `str.split('\n')`: explicit line breaks only; the empty string
yields `[""]`. -/
def pySplitLines (s : String) : List String :=
  splitLinesAux s.data []

/-- Branch 2 guard: `line.startswith('Date:') or
line.lower().startswith('ref:') or line.lower().startswith('reference:')`
(note `Date:` is matched case-sensitively, the other two not). -/
def isRefDate (line : String) : Bool :=
  pyStartsWith line "Date:" || pyStartsWith (pyLower line) "ref:" ||
    pyStartsWith (pyLower line) "reference:"

/-- Branch 3 guard: `any(line.lower().startswith(s) for s in
['dear ', 'to whom', 'sir', 'madam'])`. -/
def isSalutation (line : String) : Bool :=
  ["dear ", "to whom", "sir", "madam"].any (fun s => pyStartsWith (pyLower line) s)

/-- Branch 4 guard: `line.lower().startswith('subject:')`. -/
def isSubject (line : String) : Bool :=
  pyStartsWith (pyLower line) "subject:"

/-- Branch 5 guard: `line.lower().startswith(('yours ', 'sincerely',
'faithfully', 'regards'))`. -/
def isClosing (line : String) : Bool :=
  ["yours ", "sincerely", "faithfully", "regards"].any
    (fun s => pyStartsWith (pyLower line) s)

/-- Branch 6 guard: `line.endswith(':') and len(line) < 50`. -/
def isSectionHeader (line : String) : Bool :=
  pyEndsWith line ":" && decide (pyLen line < 50)

/-- The if/elif/else chain of `create_word_document` applied to one
already-stripped line; first matching branch wins. -/
def classify (line : String) : BlockRole :=
  if line = "" then BlockRole.blank
  else if isRefDate line then BlockRole.refOrDate
  else if isSalutation line then BlockRole.salutation
  else if isSubject line then BlockRole.subject
  else if isClosing line then BlockRole.closing
  else if isSectionHeader line then BlockRole.sectionHeader
  else BlockRole.body

/-- The classification pass of `create_word_document`:
`lines = loa_content.strip().split('\n')`, then each line is stripped and
classified independently, one block (docx paragraph) per line. -/
def render (loa_content : String) : List Block :=
  (pySplitLines (pyStrip loa_content)).map (fun l => ⟨pyStrip l, classify (pyStrip l)⟩)

/-!
Transcript-shape predicates and the reachability relation used to state the
spec invariants about `conversation_history`.
-/

/-- The role expected after `r` in a strictly alternating
request/response transcript. -/
def flipRole : Role → Role
  | Role.user => Role.assistant
  | _ => Role.user

/-- `altExpect r l` holds when the roles of `l` are exactly
`r, flip r, flip (flip r), ...`. -/
def altExpect : Role → List Msg → Bool
  | _, [] => true
  | r, m :: rest => m.role == r && altExpect (flipRole r) rest

/-- Strict request-then-response interleaving as the claim states it: the
transcript alternates `user, assistant, user, assistant, ...` from the
start (a trailing unanswered request is allowed, adjacent requests are
not). -/
def strictAlt (l : List Msg) : Bool :=
  altExpect Role.user l

/-- Whether a message list starts with a request (`user`) Turn. -/
def headIsUser : List Msg → Bool
  | ⟨Role.user, _⟩ :: _ => true
  | _ => false

/-- Scanning a REVERSED transcript: every response Turn must be
immediately followed (in reversed order, i.e. immediately preceded in the
transcript) by a request Turn. -/
def revOk : List Msg → Bool
  | [] => true
  | m :: rest => (m.role != Role.assistant || headIsUser rest) && revOk rest

/-- Every response Turn of the transcript immediately follows a request
Turn. -/
def respFollowsReq (l : List Msg) : Bool :=
  revOk l.reverse

/-- Session states reachable in `app.py` from a fresh `LOAGenerator` by
any sequence of `generate_loa` / `edit_loa` calls, with arbitrary
parameters, dates and external-service outcomes (successes and
failures). -/
inductive ReachableApp : GenState → Prop where
  | init : ReachableApp initState
  | gen (st : GenState) (p : App.Params) (today : Date) (svc : Svc) :
      ReachableApp st → ReachableApp (App.generate_loa st p today svc).1
  | edit (st : GenState) (req : String) (svc : Svc) :
      ReachableApp st → ReachableApp (App.edit_loa st req svc).1

/-!
Concrete scenario used by the counterexamples: a fresh `app.py` session, a
successful generation, then a failing edit (the service raises), then one
more edit.
-/

/-- A service that always answers with the letter `"LETTER ONE"`. -/
def svcOk1 : Svc := fun _ => Except.ok "LETTER ONE"

/-- A service that always answers with the letter `"LETTER TWO"`. -/
def svcOk2 : Svc := fun _ => Except.ok "LETTER TWO"

/-- A service whose call always raises. -/
def svcFail : Svc := fun _ => Except.error "Connection timed out"

/-- An `app.py` parameter dict with every key absent. -/
def appParams0 : App.Params := ⟨none, none, none, none, none⟩

/-- A fixed calendar date standing for `datetime.date.today()`. -/
def today0 : Date := ⟨2025, 6, 1⟩

/-- State after one successful generation on a fresh `app.py` session. -/
def stGen : GenState := (App.generate_loa initState appParams0 today0 svcOk1).1

/-- State after a subsequent edit whose service call raises. -/
def stEditFail : GenState := (App.edit_loa stGen "Shorten it" svcFail).1

/-- State after one more edit whose service call succeeds. -/
def stEditOk : GenState := (App.edit_loa stEditFail "Make it formal" svcOk2).1

/-- State after instead a second failing edit from `stEditFail`. -/
def stEditFail2 : GenState := (App.edit_loa stEditFail "Make it formal" svcFail).1

/-- State after one successful generation on a fresh `main.py` session. -/
def stMGen1 : GenState := (Main.generate_loa initState Main.emptyParams today0 svcOk1).1

/-- State after a second successful generation in the same `main.py`
session (service now answering `"LETTER TWO"`). -/
def stMGen2 : GenState := (Main.generate_loa stMGen1 Main.emptyParams today0 svcOk2).1

/-- The nine-line example letter of the specification. -/
def letter6 : String :=
  "Date: 01.01.2025\n\nDear Sir,\nSubject: Authorization for Hoarding\nTerms:\nThis letter authorizes installation.\n\nYours sincerely,\nJ. Doe"

/-!
Claim theorems.
-/

/-- C1 (counterexample): in the `main.py` variant a raising service call is
NOT caught: both `generate_loa` on a fresh session and `edit_loa` on an
active session propagate the exception (`Except.error`) to the caller
instead of returning a failure string, contradicting the claim that every
generate/revise catches at this layer. -/
theorem C1_counterexample :
    (Main.generate_loa initState Main.emptyParams today0 svcFail).2 =
      Except.error "Connection timed out" ∧
    (Main.edit_loa stMGen1 "Shorten it" svcFail).2.1 =
      Except.error "Connection timed out" := by
  exact ⟨rfl, rfl⟩

/-- C1 (amended): only the `app.py` variant catches the service exception,
returning `"Error generating LOA: <e>"` from `generate_loa` (with state
untouched) and `"Error editing LOA: <e>"` from `edit_loa`; the `main.py`
variant propagates the exception from both operations. -/
theorem C1_amended (st : GenState) (ap : App.Params) (mp : Main.Params)
    (today : Date) (req e : String) (hA : pyFalsy st.current_loa = false) :
    App.generate_loa st ap today (fun _ => Except.error e) =
      (st, "Error generating LOA: " ++ e) ∧
    (App.edit_loa st req (fun _ => Except.error e)).2 =
      ("Error editing LOA: " ++ e, 1) ∧
    (Main.generate_loa st mp today (fun _ => Except.error e)).2 =
      Except.error e ∧
    (Main.edit_loa st req (fun _ => Except.error e)).2 =
      (Except.error e, 1) := by
  refine ⟨?_, ?_, ?_, ?_⟩ <;>
    simp [App.generate_loa, App.edit_loa, Main.generate_loa, Main.edit_loa, hA]

/-- C1 (witness): the amended statement evaluated on the concrete active
session `stGen` and a service whose call raises `"quota exceeded"`. -/
theorem C1_witness :
    pyFalsy stGen.current_loa = false ∧
    (App.generate_loa stGen appParams0 today0 (fun _ => Except.error "quota exceeded") =
        (stGen, "Error generating LOA: " ++ "quota exceeded") ∧
      (App.edit_loa stGen "Shorten it" (fun _ => Except.error "quota exceeded")).2 =
        ("Error editing LOA: " ++ "quota exceeded", 1) ∧
      (Main.generate_loa stGen Main.emptyParams today0 (fun _ => Except.error "quota exceeded")).2 =
        Except.error "quota exceeded" ∧
      (Main.edit_loa stGen "Shorten it" (fun _ => Except.error "quota exceeded")).2 =
        (Except.error "quota exceeded", 1)) :=
  ⟨by decide,
    C1_amended stGen appParams0 Main.emptyParams today0 "Shorten it" "quota exceeded"
      (by decide)⟩

/-- C2: on an Empty session (`current_loa` absent) `edit_loa` of either
variant returns the fixed no-active-letter message, leaves the state
untouched, and performs zero external-service invocations, for every edit
request and every service. -/
theorem C2_revise_on_empty (st : GenState) (req : String) (svc : Svc)
    (h : st.current_loa = none) :
    App.edit_loa st req svc = (st, noLoaMsg, 0) ∧
    Main.edit_loa st req svc = (st, Except.ok noLoaMsg, 0) := by
  constructor <;> simp [App.edit_loa, Main.edit_loa, pyFalsy, h]

/-- C2 (witness): the statement evaluated on the fresh session with a
concrete edit request and a concrete (never consulted) service. -/
theorem C2_witness :
    initState.current_loa = none ∧
    App.edit_loa initState "Add a clause" svcOk1 = (initState, noLoaMsg, 0) ∧
    Main.edit_loa initState "Add a clause" svcOk1 =
      (initState, Except.ok noLoaMsg, 0) :=
  ⟨rfl, (C2_revise_on_empty initState "Add a clause" svcOk1 rfl).1,
    (C2_revise_on_empty initState "Add a clause" svcOk1 rfl).2⟩

/-- C6: rendering the nine-line example letter yields exactly nine
classified blocks whose roles, in order, are reference-or-date, blank,
salutation, subject, section-header, body, blank, closing, body. -/
theorem C6_nine_line_letter :
    (render letter6).map Block.role =
      [BlockRole.refOrDate, BlockRole.blank, BlockRole.salutation,
       BlockRole.subject, BlockRole.sectionHeader, BlockRole.body,
       BlockRole.blank, BlockRole.closing, BlockRole.body] ∧
    (render letter6).length = 9 := by
  constructor <;> decide

/-- String concatenation is associative (via the underlying character
lists). -/
theorem strAppendAssoc (a b c : String) : a ++ b ++ c = a ++ (b ++ c) := by
  apply String.ext
  simp [String.data_append]

/-- Elements contributed by a conditional `address_parts.append` are the
truthy (hence non-empty) field values. -/
theorem optPart_mem_ne_empty (o : Option String) : ∀ s ∈ Main.optPart o, s ≠ "" := by
  intro s hs
  unfold Main.optPart at hs
  split at hs
  case isTrue h =>
    simp at hs
    subst hs
    simpa [truthy] using h
  case isFalse h => simp at hs

/-- A falsy field contributes nothing to `address_parts`. -/
theorem optPart_eq_nil (o : Option String) (h : truthy o = false) :
    Main.optPart o = [] := by
  simp [Main.optPart, h]

/-- C7: the line classification of the Layout Renderer is total and never
fails: every input line of every input text yields exactly one block
(one per split line), empty input collapses to a single blank block, and
the seven roles are exhaustive and mutually exclusive under the
first-match precedence of the if/elif chain (each role is assigned
exactly when its guard is the first to hold). -/
theorem C7_classification_total (content line : String) :
    (render content).length = (pySplitLines (pyStrip content)).length ∧
    (pyStrip content = "" → render content = [⟨"", BlockRole.blank⟩]) ∧
    (classify line = BlockRole.blank ↔ line = "") ∧
    (classify line = BlockRole.refOrDate ↔
      line ≠ "" ∧ isRefDate line = true) ∧
    (classify line = BlockRole.salutation ↔
      line ≠ "" ∧ isRefDate line = false ∧ isSalutation line = true) ∧
    (classify line = BlockRole.subject ↔
      line ≠ "" ∧ isRefDate line = false ∧ isSalutation line = false ∧
        isSubject line = true) ∧
    (classify line = BlockRole.closing ↔
      line ≠ "" ∧ isRefDate line = false ∧ isSalutation line = false ∧
        isSubject line = false ∧ isClosing line = true) ∧
    (classify line = BlockRole.sectionHeader ↔
      line ≠ "" ∧ isRefDate line = false ∧ isSalutation line = false ∧
        isSubject line = false ∧ isClosing line = false ∧
        isSectionHeader line = true) ∧
    (classify line = BlockRole.body ↔
      line ≠ "" ∧ isRefDate line = false ∧ isSalutation line = false ∧
        isSubject line = false ∧ isClosing line = false ∧
        isSectionHeader line = false) := by
  refine ⟨by simp [render], ?_, ?_, ?_, ?_, ?_, ?_, ?_, ?_⟩
  · intro h
    simp only [render, h]
    rfl
  all_goals
    simp only [classify]
    split_ifs with h1 h2 h3 h4 h5 h6 <;> simp_all

/-- C7 (witness): the empty text renders to a single blank block (via the
theorem), and the spec's example line `"Terms:"` gets the section-header
role. -/
theorem C7_witness :
    render "" = [⟨"", BlockRole.blank⟩] ∧
    classify "Terms:" = BlockRole.sectionHeader :=
  ⟨(C7_classification_total "" "Terms:").2.1 (by decide), by decide⟩

/-- C8: the recipient address block is the `"\n"`-join of exactly the
non-empty segments (so no blank line is ever inserted between populated
segments), and when every address field is empty or absent the block is
the empty string. -/
theorem C8_address_block (p : Main.Params) :
    Main.recipientAddress p = String.intercalate "\n" (Main.addressParts p) ∧
    (∀ s ∈ Main.addressParts p, s ≠ "") ∧
    ((truthy p.company_name || truthy p.address_line1 || truthy p.address_line2 ||
        truthy p.address_line3 || truthy p.city || truthy p.pincode) = false →
      Main.recipientAddress p = "") := by
  refine ⟨rfl, ?_, ?_⟩
  · intro s hs
    unfold Main.addressParts at hs
    simp only [List.mem_append] at hs
    rcases hs with ((((h | h) | h) | h) | h)
    · exact optPart_mem_ne_empty _ s h
    · exact optPart_mem_ne_empty _ s h
    · exact optPart_mem_ne_empty _ s h
    · exact optPart_mem_ne_empty _ s h
    · split at h
      case isTrue hc =>
        simp at h
        subst h
        simpa using hc
      case isFalse hc => simp at h
  · intro h
    simp only [Bool.or_eq_false_iff] at h
    obtain ⟨⟨⟨⟨⟨h1, h2⟩, h3⟩, h4⟩, h5⟩, h6⟩ := h
    have hc : Main.cityPincode p = "" := by
      simp [Main.cityPincode, h5, h6]
    have hap : Main.addressParts p = [] := by
      simp [Main.addressParts, optPart_eq_nil _ h1, optPart_eq_nil _ h2,
        optPart_eq_nil _ h3, optPart_eq_nil _ h4, hc]
    rw [Main.recipientAddress, hap]
    decide

/-- C8 (witness): on the all-absent parameter set the address block is
empty. -/
theorem C8_witness :
    ((truthy Main.emptyParams.company_name || truthy Main.emptyParams.address_line1 ||
        truthy Main.emptyParams.address_line2 || truthy Main.emptyParams.address_line3 ||
        truthy Main.emptyParams.city || truthy Main.emptyParams.pincode) = false) ∧
    Main.recipientAddress Main.emptyParams = "" :=
  ⟨by decide, (C8_address_block Main.emptyParams).2.2 (by decide)⟩

/-- C9: with no reference number supplied the instruction text contains the
default `LOA/<year>/<month>/<day>` built from today's date; a supplied
reference number appears verbatim. -/
theorem C9_reference_number (p : Main.Params) (today : Date) :
    (p.reference_number = none →
      ∃ a b, Main.constructLoaPrompt p today =
        a ++ ("LOA/" ++ fmtYMD today) ++ b) ∧
    ∀ r, p.reference_number = some r →
      ∃ a b, Main.constructLoaPrompt p today = a ++ r ++ b := by
  constructor
  · intro h
    refine ⟨Main.promptIntro,
      Main.promptAfterRef p today ++ Main.contactBlock p ++ Main.scenarioBlock p ++
        Main.sizeBlock p ++ Main.paymentBlock p ++ Main.termsBlock p ++
        Main.signatoryBlock p ++ Main.specialBlock p ++ Main.styleBlock, ?_⟩
    simp [Main.constructLoaPrompt, Main.refValue, h, strAppendAssoc]
  · intro r h
    refine ⟨Main.promptIntro,
      Main.promptAfterRef p today ++ Main.contactBlock p ++ Main.scenarioBlock p ++
        Main.sizeBlock p ++ Main.paymentBlock p ++ Main.termsBlock p ++
        Main.signatoryBlock p ++ Main.specialBlock p ++ Main.styleBlock, ?_⟩
    simp [Main.constructLoaPrompt, Main.refValue, h, strAppendAssoc]

/-- A `main.py` parameter dict supplying only a reference number. -/
def mainParamsRef : Main.Params :=
  ⟨some "RE/DIGITAL_HOARDING/LOA/2024/001", none, none, none, none, none, none,
   none, none, none, none, none, none, none, none, none, none, none, none, none,
   none, none, none, none, none⟩

/-- C9 (witness): the default reference stamp appears for the all-absent
parameter set, and a supplied reference number appears verbatim. -/
theorem C9_witness :
    (Main.emptyParams.reference_number = none ∧
      ∃ a b, Main.constructLoaPrompt Main.emptyParams today0 =
        a ++ ("LOA/" ++ fmtYMD today0) ++ b) ∧
    (mainParamsRef.reference_number = some "RE/DIGITAL_HOARDING/LOA/2024/001" ∧
      ∃ a b, Main.constructLoaPrompt mainParamsRef today0 =
        a ++ "RE/DIGITAL_HOARDING/LOA/2024/001" ++ b) :=
  ⟨⟨rfl, (C9_reference_number Main.emptyParams today0).1 rfl⟩,
    ⟨rfl, (C9_reference_number mainParamsRef today0).2
      "RE/DIGITAL_HOARDING/LOA/2024/001" rfl⟩⟩

/-- State after a successful revise following the successful generation in
`stMGen1`. -/
def stMEdit : GenState := (Main.edit_loa stMGen1 "Shorten it" svcOk1).1

/-- C3: from the fresh session, one successful generate followed by one
successful revise (the revise did invoke the service exactly once and it
answered) leaves a transcript of exactly two request and two response
Turns in strict request/response alternation, with `current_loa` equal to
the second response text. -/
theorem C3_generate_then_revise (p : Main.Params) (today : Date)
    (req : String) (svc : Svc) (st1 st2 : GenState) (r1 r2 : String)
    (h1 : Main.generate_loa initState p today svc = (st1, Except.ok r1))
    (h2 : Main.edit_loa st1 req svc = (st2, Except.ok r2, 1)) :
    st2.conversation_history =
      [⟨Role.user, Main.constructLoaPrompt p today⟩, ⟨Role.assistant, r1⟩,
        editMsg req, ⟨Role.assistant, r2⟩] ∧
    countReq st2.conversation_history = 2 ∧
    countResp st2.conversation_history = 2 ∧
    strictAlt st2.conversation_history = true ∧
    st2.current_loa = some r2 := by
  unfold Main.generate_loa at h1
  cases hs1 : svc (Main.genMessages initState p today) with
  | error e => rw [hs1] at h1; simp at h1
  | ok c =>
      rw [hs1] at h1
      simp only [Prod.mk.injEq, Except.ok.injEq] at h1
      obtain ⟨hst1, hr1⟩ := h1
      subst hst1
      subst hr1
      by_cases hc : c = ""
      · simp [Main.edit_loa, pyFalsy, hc] at h2
      · unfold Main.edit_loa at h2
        simp only [pyFalsy, hc, decide_eq_true_eq, if_neg, decide_False] at h2
        cases hs2 : svc (Main.editMessages ⟨[⟨Role.user, Main.constructLoaPrompt p today⟩,
            ⟨Role.assistant, c⟩], some c⟩ req) with
        | error e => rw [hs2] at h2; simp at h2
        | ok c2 =>
            rw [hs2] at h2
            simp at h2
            obtain ⟨hst2, hr2⟩ := h2
            subst hst2
            subst hr2
            refine ⟨?_, rfl, rfl, rfl, rfl⟩
            simp

/-- C3 (witness): the statement evaluated on a concrete run (generate then
revise, the service answering `"LETTER ONE"` both times). -/
theorem C3_witness :
    Main.generate_loa initState Main.emptyParams today0 svcOk1 =
      (stMGen1, Except.ok "LETTER ONE") ∧
    Main.edit_loa stMGen1 "Shorten it" svcOk1 =
      (stMEdit, Except.ok "LETTER ONE", 1) ∧
    (stMEdit.conversation_history =
        [⟨Role.user, Main.constructLoaPrompt Main.emptyParams today0⟩,
          ⟨Role.assistant, "LETTER ONE"⟩, editMsg "Shorten it",
          ⟨Role.assistant, "LETTER ONE"⟩] ∧
      countReq stMEdit.conversation_history = 2 ∧
      countResp stMEdit.conversation_history = 2 ∧
      strictAlt stMEdit.conversation_history = true ∧
      stMEdit.current_loa = some "LETTER ONE") :=
  ⟨rfl, rfl,
    C3_generate_then_revise Main.emptyParams today0 "Shorten it" svcOk1
      stMGen1 stMEdit "LETTER ONE" "LETTER ONE" rfl rfl⟩

/-- C5 (counterexample): a second generate on an Active `main.py` session
does NOT preserve the earlier Turns in the transcript store: after it, the
store holds only the new request/response pair and the first response
Turn is gone. -/
theorem C5_counterexample :
    stMGen1.conversation_history =
      [⟨Role.user, Main.constructLoaPrompt Main.emptyParams today0⟩,
        ⟨Role.assistant, "LETTER ONE"⟩] ∧
    stMGen2.conversation_history =
      [⟨Role.user, Main.constructLoaPrompt Main.emptyParams today0⟩,
        ⟨Role.assistant, "LETTER TWO"⟩] ∧
    Msg.mk Role.assistant "LETTER ONE" ∈ stMGen1.conversation_history ∧
    Msg.mk Role.assistant "LETTER ONE" ∉ stMGen2.conversation_history := by
  refine ⟨rfl, rfl, by decide, by decide⟩

/-- C5 (amended): a successful revise appends its request and response
Turns in call order, preserving all earlier Turns unchanged, and the
message list it sends is the system directive followed by the complete
stored history (hence including the original generation Turn pair) plus
the new edit request; a second generate, by contrast, sends the earlier
Turns as context but REPLACES the stored transcript with the new
request/response pair. -/
theorem C5_amended (st : GenState) (req r : String) (svc : Svc)
    (p : Main.Params) (today : Date) (r2 : String) (svc2 : Svc)
    (hA : pyFalsy st.current_loa = false)
    (hs : svc (Main.editMessages st req) = Except.ok r)
    (hg : svc2 (Main.genMessages st p today) = Except.ok r2) :
    Main.edit_loa st req svc =
      (⟨st.conversation_history ++ [editMsg req, ⟨Role.assistant, r⟩], some r⟩,
        Except.ok r, 1) ∧
    Main.editMessages st req =
      ⟨Role.system, systemPrompt⟩ :: (st.conversation_history ++ [editMsg req]) ∧
    (Main.generate_loa st p today svc2).1.conversation_history =
      [⟨Role.user, Main.constructLoaPrompt p today⟩, ⟨Role.assistant, r2⟩] := by
  refine ⟨?_, rfl, ?_⟩
  · simp [Main.edit_loa, hA, hs]
  · simp [Main.generate_loa, hg]

/-- C5 (witness): the amended statement evaluated on the concrete Active
session `stMGen1`. -/
theorem C5_witness :
    pyFalsy stMGen1.current_loa = false ∧
    svcOk1 (Main.editMessages stMGen1 "Shorten it") = Except.ok "LETTER ONE" ∧
    svcOk2 (Main.genMessages stMGen1 Main.emptyParams today0) = Except.ok "LETTER TWO" ∧
    (Main.edit_loa stMGen1 "Shorten it" svcOk1 =
        (⟨stMGen1.conversation_history ++
            [editMsg "Shorten it", ⟨Role.assistant, "LETTER ONE"⟩],
          some "LETTER ONE"⟩, Except.ok "LETTER ONE", 1) ∧
      Main.editMessages stMGen1 "Shorten it" =
        ⟨Role.system, systemPrompt⟩ ::
          (stMGen1.conversation_history ++ [editMsg "Shorten it"]) ∧
      (Main.generate_loa stMGen1 Main.emptyParams today0 svcOk2).1.conversation_history =
        [⟨Role.user, Main.constructLoaPrompt Main.emptyParams today0⟩,
          ⟨Role.assistant, "LETTER TWO"⟩]) :=
  ⟨by decide, rfl, rfl,
    C5_amended stMGen1 "Shorten it" "LETTER ONE" svcOk1 Main.emptyParams today0
      "LETTER TWO" svcOk2 (by decide) rfl rfl⟩

/-- C10 (counterexample): the one-more-request-than-responses claim fails
for Active sessions whose transcript is already unbalanced: after one
failed edit the session is still Active, and a second failed edit leaves
three request Turns against one response Turn. -/
theorem C10_counterexample :
    ReachableApp stEditFail ∧
    pyFalsy stEditFail.current_loa = false ∧
    countReq stEditFail2.conversation_history = 3 ∧
    countResp stEditFail2.conversation_history = 1 ∧
    countReq stEditFail2.conversation_history ≠
      countResp stEditFail2.conversation_history + 1 := by
  refine ⟨?_, by decide, by decide, by decide, by decide⟩
  exact ReachableApp.edit stGen "Shorten it" svcFail
    (ReachableApp.gen initState appParams0 today0 svcOk1 ReachableApp.init)

/-- C10 (amended): when the service call inside an Active `app.py` edit
fails, `current_loa` is left unchanged and the already-appended
edit-request Turn is not rolled back: the transcript gains exactly one
request Turn and no response Turn — so a transcript that was balanced
before the call ends up with exactly one more request than responses. -/
theorem C10_amended (st : GenState) (req e : String) (svc : Svc)
    (hA : pyFalsy st.current_loa = false)
    (hf : svc (App.editMessages st req) = Except.error e) :
    App.edit_loa st req svc =
      (⟨st.conversation_history ++ [editMsg req], st.current_loa⟩,
        "Error editing LOA: " ++ e, 1) ∧
    countReq (App.edit_loa st req svc).1.conversation_history =
      countReq st.conversation_history + 1 ∧
    countResp (App.edit_loa st req svc).1.conversation_history =
      countResp st.conversation_history ∧
    (countReq st.conversation_history = countResp st.conversation_history →
      countReq (App.edit_loa st req svc).1.conversation_history =
        countResp (App.edit_loa st req svc).1.conversation_history + 1) := by
  have h1 : App.edit_loa st req svc =
      (⟨st.conversation_history ++ [editMsg req], st.current_loa⟩,
        "Error editing LOA: " ++ e, 1) := by
    simp [App.edit_loa, hA, hf]
  have hq : countReq (App.edit_loa st req svc).1.conversation_history =
      countReq st.conversation_history + 1 := by
    rw [h1]
    simp [countReq, List.countP_append, editMsg]
  have hr : countResp (App.edit_loa st req svc).1.conversation_history =
      countResp st.conversation_history := by
    rw [h1]
    simp [countResp, List.countP_append, editMsg]
  exact ⟨h1, hq, hr, fun hb => by rw [hq, hr, hb]⟩

/-- C10 (witness): the amended statement evaluated on the concrete Active
session `stGen` (balanced transcript) and the always-raising service. -/
theorem C10_witness :
    pyFalsy stGen.current_loa = false ∧
    svcFail (App.editMessages stGen "Shorten it") =
      Except.error "Connection timed out" ∧
    App.edit_loa stGen "Shorten it" svcFail =
      (⟨stGen.conversation_history ++ [editMsg "Shorten it"], stGen.current_loa⟩,
        "Error editing LOA: " ++ "Connection timed out", 1) ∧
    countReq (App.edit_loa stGen "Shorten it" svcFail).1.conversation_history =
      countReq stGen.conversation_history + 1 ∧
    countResp (App.edit_loa stGen "Shorten it" svcFail).1.conversation_history =
      countResp stGen.conversation_history ∧
    countReq (App.edit_loa stGen "Shorten it" svcFail).1.conversation_history =
      countResp (App.edit_loa stGen "Shorten it" svcFail).1.conversation_history + 1 :=
  ⟨by decide, rfl,
    (C10_amended stGen "Shorten it" "Connection timed out" svcFail (by decide) rfl).1,
    (C10_amended stGen "Shorten it" "Connection timed out" svcFail (by decide) rfl).2.1,
    (C10_amended stGen "Shorten it" "Connection timed out" svcFail (by decide) rfl).2.2.1,
    (C10_amended stGen "Shorten it" "Connection timed out" svcFail (by decide) rfl).2.2.2
      (by decide)⟩

/-- Prepending a request Turn to a reversed transcript preserves the
response-follows-request scan. -/
theorem revOk_cons_user (s : String) (l : List Msg) :
    revOk (⟨Role.user, s⟩ :: l) = revOk l := rfl

/-- Prepending a response Turn directly followed (in reversed order) by a
request Turn preserves the scan. -/
theorem revOk_cons_pair (s t : String) (l : List Msg) :
    revOk (⟨Role.assistant, s⟩ :: ⟨Role.user, t⟩ :: l) =
      revOk (⟨Role.user, t⟩ :: l) := rfl

/-- Appending an unanswered request Turn preserves the
response-follows-request property. -/
theorem respFollowsReq_append_user (l : List Msg) (s : String) :
    respFollowsReq (l ++ [⟨Role.user, s⟩]) = respFollowsReq l := by
  unfold respFollowsReq
  have h : (l ++ [Msg.mk Role.user s]).reverse = ⟨Role.user, s⟩ :: l.reverse := by
    simp
  rw [h, revOk_cons_user]

/-- Appending a request/response Turn pair preserves the
response-follows-request property. -/
theorem respFollowsReq_append_pair (l : List Msg) (s t : String) :
    respFollowsReq (l ++ [⟨Role.user, s⟩, ⟨Role.assistant, t⟩]) =
      respFollowsReq l := by
  unfold respFollowsReq
  have h : (l ++ [Msg.mk Role.user s, Msg.mk Role.assistant t]).reverse =
      ⟨Role.assistant, t⟩ :: ⟨Role.user, s⟩ :: l.reverse := by
    simp
  rw [h, revOk_cons_pair, revOk_cons_user]

/-- C4 (counterexample): strict request-then-response interleaving fails on
a reachable `app.py` state: after a successful generate, an edit whose
service call raises, and a further successful edit, the transcript roles
are user, assistant, user, user, assistant — two adjacent requests. -/
theorem C4_counterexample :
    ReachableApp stEditOk ∧
    stEditOk.conversation_history.map Msg.role =
      [Role.user, Role.assistant, Role.user, Role.user, Role.assistant] ∧
    strictAlt stEditOk.conversation_history = false := by
  refine ⟨?_, rfl, by decide⟩
  exact ReachableApp.edit stEditFail "Make it formal" svcOk2
    (ReachableApp.edit stGen "Shorten it" svcFail
      (ReachableApp.gen initState appParams0 today0 svcOk1 ReachableApp.init))

/-- C4 (amended): on every reachable `app.py` session state the transcript
never holds more response Turns than request Turns, and every response
Turn immediately follows a request Turn; full strict alternation, however,
only survives failure-free histories (a failed revise leaves an unanswered
request Turn, after which two requests can be adjacent, as the
counterexample shows). -/
theorem C4_amended (st : GenState) (h : ReachableApp st) :
    respFollowsReq st.conversation_history = true ∧
    countResp st.conversation_history ≤ countReq st.conversation_history := by
  induction h with
  | init => exact ⟨rfl, Nat.le_refl 0⟩
  | gen st p today svc hst ih =>
      cases hs : svc (App.genMessages st p today) with
      | ok c =>
          simp only [App.generate_loa, hs]
          exact ⟨rfl, Nat.le_refl 1⟩
      | error e =>
          simp only [App.generate_loa, hs]
          exact ih
  | edit st req svc hst ih =>
      by_cases hb : pyFalsy st.current_loa = true
      · simp only [App.edit_loa, hb, if_true]
        exact ih
      · cases hs : svc (App.editMessages st req) with
        | ok c =>
            have hstate : (App.edit_loa st req svc).1 =
                ⟨st.conversation_history ++
                  [⟨Role.user, editMessageContent req⟩, ⟨Role.assistant, c⟩],
                  some c⟩ := by
              simp [App.edit_loa, hb, hs, editMsg]
            rw [hstate]
            dsimp only
            constructor
            · rw [respFollowsReq_append_pair]
              exact ih.1
            · simp only [countReq, countResp, List.countP_append]
              have hcr : List.countP (fun m => m.role == Role.user)
                  [Msg.mk Role.user (editMessageContent req),
                    Msg.mk Role.assistant c] = 1 := rfl
              have hcs : List.countP (fun m => m.role == Role.assistant)
                  [Msg.mk Role.user (editMessageContent req),
                    Msg.mk Role.assistant c] = 1 := rfl
              rw [hcr, hcs]
              exact Nat.add_le_add ih.2 (Nat.le_refl 1)
        | error e =>
            have hstate : (App.edit_loa st req svc).1 =
                ⟨st.conversation_history ++ [⟨Role.user, editMessageContent req⟩],
                  st.current_loa⟩ := by
              simp [App.edit_loa, hb, hs, editMsg]
            rw [hstate]
            dsimp only
            constructor
            · rw [respFollowsReq_append_user]
              exact ih.1
            · simp only [countReq, countResp, List.countP_append]
              have hcr : List.countP (fun m => m.role == Role.user)
                  [Msg.mk Role.user (editMessageContent req)] = 1 := rfl
              have hcs : List.countP (fun m => m.role == Role.assistant)
                  [Msg.mk Role.user (editMessageContent req)] = 0 := rfl
              rw [hcr, hcs]
              exact Nat.le_trans ih.2 (Nat.le_succ _)

/-- C4 (witness): the amended invariant evaluated on the concrete
reachable state `stEditOk` (generate-ok, edit-fail, edit-ok). -/
theorem C4_witness :
    respFollowsReq stEditOk.conversation_history = true ∧
    countResp stEditOk.conversation_history ≤
      countReq stEditOk.conversation_history :=
  C4_amended stEditOk
    (ReachableApp.edit stEditFail "Make it formal" svcOk2
      (ReachableApp.edit stGen "Shorten it" svcFail
        (ReachableApp.gen initState appParams0 today0 svcOk1 ReachableApp.init)))
